import Mathlib

/-!
Verification development for the "Unspoken-Pain Finder" application
(src/pain_finder.py).

The application keeps two SQLite tables:

  users (username TEXT PRIMARY KEY, password TEXT, plan TEXT DEFAULT "free")
  ideas (id INTEGER PRIMARY KEY, username TEXT, input TEXT, output TEXT,
         timestamp DATETIME DEFAULT CURRENT_TIMESTAMP)

We embed the database as lists of rows together with the id counter and the
current wall-clock value used for the CURRENT_TIMESTAMP default.  The SHA-256
digest used by make_hashes is modelled as an arbitrary function
hash : String → String, so every theorem below holds for the concrete digest
as a special case.  The external generative-AI collaborator is modelled as a
function from the prompt string to either a produced text or an error
message (the Python code distinguishes exactly these two outcomes).
-/

/-- A row of the users table: username (primary key), stored password hash,
and plan ("free" or "pro"). -/
structure UserRow where
  username : String
  password : String
  plan : String
deriving Repr, DecidableEq

/-- A row of the ideas table: id, owner username, input text, output text and
the server-assigned timestamp. -/
structure IdeaRow where
  id : Nat
  username : String
  input : String
  output : String
  timestamp : Nat
deriving Repr, DecidableEq

/-- The database state: both tables, the next id handed out by the INTEGER
PRIMARY KEY of ideas, and the current clock value used for the
CURRENT_TIMESTAMP column default. -/
structure DB where
  users : List UserRow
  ideas : List IdeaRow
  nextId : Nat
  now : Nat
deriving Repr, DecidableEq

/-- MAX_FREE_COUNT = 5, the free-plan save limit set in the tab-1 code. -/
def MAX_FREE_COUNT : Nat := 5

/-- check_hashes(password, hashed_text): make_hashes(password) == hashed_text.
The digest make_hashes is the parameter hash. -/
def check_hashes (hash : String → String) (password hashed_text : String) : Bool :=
  hash password == hashed_text

/-- Errors surfaced by the registration path: sqlite3.IntegrityError from the
violated PRIMARY KEY constraint (caught separately by the registration
handler), and any other exception. -/
inductive RegError
  | alreadyExists
  | other (msg : String)
deriving Repr, DecidableEq

/-- add_user(username, password): INSERT INTO users of
(username, make_hashes(password), "free").  The username column is the
primary key, so inserting an existing username raises
sqlite3.IntegrityError, which the registration handler reports as the
distinct already-used error; on that path the table is unchanged. -/
def add_user (hash : String → String) (db : DB) (username password : String) :
    Except RegError DB :=
  if db.users.any (fun r => r.username == username) then
    .error .alreadyExists
  else
    .ok { db with users := db.users ++ [⟨username, hash password, "free"⟩] }

/-- login_user(username, password): SELECT * FROM users WHERE username = ?,
fetchone, then return the stored username when the record exists and
check_hashes succeeds against its password column, else None. -/
def login_user (hash : String → String) (db : DB) (username password : String) :
    Option String :=
  match db.users.find? (fun r => r.username == username) with
  | some user_record =>
      if check_hashes hash password user_record.password then
        some user_record.username
      else
        none
  | none => none

/-- save_idea(username, user_input, ai_output): INSERT INTO ideas of
(username, input, output); the id and timestamp columns take their
defaults (next integer key, CURRENT_TIMESTAMP). -/
def save_idea (db : DB) (username user_input ai_output : String) : DB :=
  { db with
    ideas := db.ideas ++ [⟨db.nextId, username, user_input, ai_output, db.now⟩]
    nextId := db.nextId + 1
    now := db.now + 1 }

/-- The projection produced by SELECT id, timestamp, input, output. -/
structure IdeaView where
  id : Nat
  timestamp : Nat
  input : String
  output : String
deriving Repr, DecidableEq

/-- Newest-first comparison used by ORDER BY timestamp DESC. -/
def tsDesc (a b : IdeaRow) : Prop :=
  b.timestamp ≤ a.timestamp

instance : DecidableRel tsDesc :=
  fun a b => inferInstanceAs (Decidable (b.timestamp ≤ a.timestamp))

instance : IsTotal IdeaRow tsDesc :=
  ⟨fun a b => Nat.le_total b.timestamp a.timestamp⟩

instance : IsTrans IdeaRow tsDesc :=
  ⟨fun _ _ _ h1 h2 => Nat.le_trans h2 h1⟩

/-- get_user_ideas(username): SELECT id, timestamp, input, output FROM ideas
WHERE username = ? ORDER BY timestamp DESC, returned with fetchall. -/
def get_user_ideas (db : DB) (username : String) : List IdeaView :=
  ((db.ideas.filter (fun r => r.username == username)).insertionSort tsDesc).map
    (fun r => ⟨r.id, r.timestamp, r.input, r.output⟩)

/-- count_user_ideas(username): SELECT COUNT(*) FROM ideas WHERE username = ?. -/
def count_user_ideas (db : DB) (username : String) : Nat :=
  (db.ideas.filter (fun r => r.username == username)).length

/-- get_user_plan(username): SELECT plan FROM users WHERE username = ?;
the stored plan when the row exists, else the default "free". -/
def get_user_plan (db : DB) (username : String) : String :=
  match db.users.find? (fun r => r.username == username) with
  | some result => result.plan
  | none => "free"

/-- upgrade_user_plan(username): UPDATE users SET plan = "pro"
WHERE username = ?. -/
def upgrade_user_plan (db : DB) (username : String) : DB :=
  { db with
    users := db.users.map (fun r =>
      if r.username == username then { r with plan := "pro" } else r) }

/-- The can_save computation of tab 1: it starts true and is cleared exactly
when user_plan == "free" and saved_count ≥ MAX_FREE_COUNT. -/
def can_save (user_plan : String) (saved_count : Nat) : Bool :=
  if user_plan == "free" then
    if saved_count ≥ MAX_FREE_COUNT then false else true
  else
    true

/-- Python truthiness of a string, as tested by the handler guard
"if user_input:": false exactly on the empty string. -/
def pyTruthy (s : String) : Bool :=
  !(s == "")

/-- The fixed prompt template of tab 1, parameterised only by the raw seed
text (the f-string interpolation becomes concatenation). -/
def mkPrompt (user_input : String) : String :=
  "あなたは最高のブレインストーミングアシスタントです。ユーザーが入力した「アイデアの種」を、具体的で実用的な3つの深掘り質問に変換してください。質問は、ユーザーが自分の問題点を明確にしたり、解決策のヒントを見つけるのに役立つものでなければなりません。ユーザーの入力: \"" ++
    user_input ++ "\" 期待する出力形式: 1. 〇〇 2. 〇〇 3. 〇〇"

/-- What the generate-button handler surfaces to the user. -/
inductive GenOutcome
  | validationFailure
  | aiError (msg : String)
  | savedResult (text : String)
  | shownOnly (text : String)
deriving Repr, DecidableEq

/-- Result of one run of the generate-button handler: the database after the
run, what was surfaced, and whether the AI collaborator was invoked. -/
structure GenResult where
  db : DB
  outcome : GenOutcome
  aiCalled : Bool
deriving Repr, DecidableEq

/-- The generate-button handler of tab 1.  The guard is the Python
truthiness of user_input; inside it the collaborator is called on the
prompt, and on success the pair is persisted exactly when can_save holds
for the plan and saved count read from the database; on the falsy branch
only the validation warning is shown. -/
def generate_button_tab1 (db : DB) (current_user user_input : String)
    (ai : String → Except String String) : GenResult :=
  if pyTruthy user_input then
    match ai (mkPrompt user_input) with
    | .ok text =>
        if can_save (get_user_plan db current_user) (count_user_ideas db current_user) then
          ⟨save_idea db current_user user_input text, .savedResult text, true⟩
        else
          ⟨db, .shownOnly text, true⟩
    | .error e => ⟨db, .aiError e, true⟩
  else
    ⟨db, .validationFailure, false⟩

/-- Errors a statement execution can raise: sqlite3.OperationalError with its
message (the only class the migration catches), or any other exception. -/
inductive SqlError
  | operational (msg : String)
  | other (msg : String)
deriving Repr, DecidableEq

/-- Does pat occur as a contiguous run inside l (Python "in" on strings). -/
def containsSub (pat : List Char) : List Char → Bool
  | [] => pat.isEmpty
  | c :: rest => pat.isPrefixOf (c :: rest) || containsSub pat rest

/-- Python substring test s2 in s1. -/
def strContains (s pat : String) : Bool :=
  containsSub pat.data s.data

/-- add_plan_column: run the ALTER TABLE adding the plan column; catch
sqlite3.OperationalError and swallow it exactly when its message contains
"duplicate column name", re-raising it otherwise; any other exception
propagates uncaught.  The argument is the outcome of the ALTER TABLE. -/
def add_plan_column (alter_result : Except SqlError Unit) : Except SqlError Unit :=
  match alter_result with
  | .ok _ => .ok ()
  | .error (.operational e) =>
      if strContains e "duplicate column name" then .ok () else .error (.operational e)
  | .error err => .error err

/-- A string that is empty or consists only of whitespace characters. -/
def isWhitespaceOnly (s : String) : Bool :=
  s.data.all Char.isWhitespace

/-!
Concrete fixtures used by witnesses: a digest instance, an empty database, a
database holding one registered free user and no ideas, and a constant
collaborator.
-/

/-- A concrete deterministic digest used to instantiate the hash parameter. -/
def hashId : String → String :=
  fun s => s ++ "#"

/-- The freshly initialised database. -/
def dbEmpty : DB :=
  ⟨[], [], 1, 0⟩

/-- A database with the single registered free user "alice" and no ideas. -/
def dbAlice : DB :=
  ⟨[⟨"alice", hashId "pw", "free"⟩], [], 1, 0⟩

/-- A collaborator that always answers with three numbered questions. -/
def aiConst : String → Except String String :=
  fun _ => .ok "1. a 2. b 3. c"

/-- C1: for a free-plan user with stored-idea count k, can_save is true iff
k < 5 (and MAX_FREE_COUNT is the constant 5); for a pro-plan user, can_save
is true for every k. -/
theorem canSave_free_iff_lt_five_pro_always (k : Nat) :
    (can_save "free" k = true ↔ k < 5) ∧ can_save "pro" k = true ∧
      MAX_FREE_COUNT = 5 := by
  refine ⟨?_, rfl, rfl⟩
  by_cases h : k ≥ MAX_FREE_COUNT
  · have h5 : ¬k < 5 := by simp [MAX_FREE_COUNT] at h; omega
    simp [can_save, h, h5]
  · have h5 : k < 5 := by simp [MAX_FREE_COUNT] at h; omega
    simp [can_save, h, h5]

/-- C9: the migration step completes without error exactly when the ALTER
TABLE raised an OperationalError whose message contains
"duplicate column name" (in particular on the actual SQLite message for a
pre-existing plan column); every other OperationalError is re-raised
unchanged, any other error propagates unchanged, and a successful ALTER
TABLE stays successful. -/
theorem addPlanColumn_ignores_only_duplicate_column (msg m : String) :
    (add_plan_column (.error (.operational msg)) = .ok () ↔
      strContains msg "duplicate column name" = true) ∧
    (add_plan_column (.error (.operational msg)) =
      if strContains msg "duplicate column name" then .ok ()
      else .error (.operational msg)) ∧
    add_plan_column (.error (.operational "duplicate column name: plan")) = .ok () ∧
    add_plan_column (.error (.other m)) = .error (.other m) ∧
    add_plan_column (.ok ()) = .ok () := by
  refine ⟨?_, rfl, rfl, rfl, rfl⟩
  unfold add_plan_column
  by_cases h : strContains msg "duplicate column name" <;> simp [h]

/-- C10: the count used by the quota check agrees with the length of the
listing returned to the user, in every database state. -/
theorem countUserIdeas_eq_listing_length (db : DB) (u : String) :
    count_user_ideas db u = (get_user_ideas db u).length := by
  unfold count_user_ideas get_user_ideas
  rw [List.length_map, (List.perm_insertionSort tsDesc _).length_eq]

/-- C2 (amended): the handler guard is Python truthiness of the seed, so the
AI collaborator is invoked exactly when the seed is non-empty; for the empty
seed the handler surfaces the validation warning, makes no AI call and
leaves the database (hence the quota count) unchanged.  A whitespace-only
non-empty seed is NOT rejected. -/
theorem emptySeed_rejected_whitespace_not (db : DB) (current_user user_input : String)
    (ai : String → Except String String) :
    (generate_button_tab1 db current_user user_input ai).aiCalled = !(user_input == "") ∧
    generate_button_tab1 db current_user "" ai = ⟨db, .validationFailure, false⟩ := by
  constructor
  · by_cases h : user_input == ""
    · simp [generate_button_tab1, pyTruthy, h]
    · simp only [generate_button_tab1, pyTruthy, h, Bool.not_false, if_pos]
      cases ai (mkPrompt user_input) with
      | ok text =>
          by_cases hc :
              can_save (get_user_plan db current_user) (count_user_ideas db current_user) <;>
            simp [hc]
      | error e => simp
  · rfl

/-- C2 (counterexample): the seed " " is whitespace-only, yet for the free
user "alice" with no stored ideas the handler calls the AI collaborator,
does not surface a validation failure, persists the pair, and the quota
count rises from 0 to 1. -/
theorem whitespaceSeed_not_rejected :
    isWhitespaceOnly " " = true ∧
    (generate_button_tab1 dbAlice "alice" " " aiConst).aiCalled = true ∧
    (generate_button_tab1 dbAlice "alice" " " aiConst).outcome =
      .savedResult "1. a 2. b 3. c" ∧
    count_user_ideas dbAlice "alice" = 0 ∧
    count_user_ideas (generate_button_tab1 dbAlice "alice" " " aiConst).db "alice" = 1 := by
  refine ⟨by decide, rfl, rfl, rfl, rfl⟩

/-- C3: login_user returns the identity u exactly when u has a users row and
the password hashes to its stored hash; when u is unregistered it returns
None for every password. -/
theorem loginUser_iff_registered_and_hash_matches (hash : String → String) (db : DB)
    (u p : String) :
    (login_user hash db u p = some u ↔
      ∃ r, db.users.find? (fun x => x.username == u) = some r ∧
        check_hashes hash p r.password = true) ∧
    (db.users.find? (fun x => x.username == u) = none →
      login_user hash db u p = none) := by
  constructor
  · unfold login_user
    cases hfind : db.users.find? (fun x => x.username == u) with
    | none => simp
    | some r =>
        have hu : r.username = u := by
          have := List.find?_some hfind
          simpa using this
        by_cases hc : check_hashes hash p r.password <;> simp [hc, hu]
  · intro hnone
    unfold login_user
    rw [hnone]

/-- Witness for C3 at a concrete store: "bob" is unregistered in dbAlice, so
login fails for him. -/
theorem loginUser_iff_witness :
    login_user hashId dbAlice "bob" "pw" = none :=
  (loginUser_iff_registered_and_hash_matches hashId dbAlice "bob" "pw").2 (by rfl)

/-- C8: a lookup miss and a stored-hash mismatch produce the identical None
result, so the caller cannot distinguish an unregistered username from a
wrong password. -/
theorem loginUser_miss_eq_mismatch (hash : String → String) (db : DB)
    (u1 p1 u2 p2 : String) (r : UserRow)
    (hmiss : db.users.find? (fun x => x.username == u1) = none)
    (hfound : db.users.find? (fun x => x.username == u2) = some r)
    (hbad : check_hashes hash p2 r.password = false) :
    login_user hash db u1 p1 = login_user hash db u2 p2 := by
  unfold login_user
  rw [hmiss, hfound]
  simp [hbad]

/-- Witness for C8: unregistered "bob" and registered "alice" with a wrong
password get the same result from dbAlice. -/
theorem loginUser_miss_eq_mismatch_witness :
    login_user hashId dbAlice "bob" "x" = login_user hashId dbAlice "alice" "wrong" :=
  loginUser_miss_eq_mismatch hashId dbAlice "bob" "x" "alice" "wrong"
    ⟨"alice", hashId "pw", "free"⟩ rfl rfl (by decide)

/-- C4: once add_user has succeeded for a username, a second add_user for the
same username fails with the distinct AlreadyExists kind, and the stored
record of the first registration — hash of the first password, plan
"free" — is what the (unchanged) table still holds for that username. -/
theorem addUser_duplicate_rejected (hash : String → String) (db db1 : DB)
    (u p1 p2 : String)
    (hok : add_user hash db u p1 = .ok db1) :
    add_user hash db1 u p2 = .error .alreadyExists ∧
    db1.users.find? (fun r => r.username == u) = some ⟨u, hash p1, "free"⟩ := by
  unfold add_user at hok
  by_cases hany : db.users.any (fun r => r.username == u)
  · simp [hany] at hok
  · simp only [hany, Bool.false_eq_true, if_false, Except.ok.injEq] at hok
    subst hok
    have hnone : db.users.find? (fun r => r.username == u) = none := by
      rw [List.find?_eq_none]
      intro x hx hpx
      exact hany (List.any_eq_true.mpr ⟨x, hx, hpx⟩)
    constructor
    · unfold add_user
      have : (db.users ++ [(⟨u, hash p1, "free"⟩ : UserRow)]).any
          (fun r => r.username == u) = true := by
        simp
      simp [this]
    · simp [List.find?_append, hnone]

/-- Witness for C4: registering "alice" into the empty store succeeds and
yields dbAlice; re-registering her is rejected with AlreadyExists and her
record still holds the hash of her first password and plan "free". -/
theorem addUser_duplicate_rejected_witness :
    add_user hashId dbAlice "alice" "again" = .error .alreadyExists ∧
    dbAlice.users.find? (fun r => r.username == "alice") =
      some ⟨"alice", hashId "pw", "free"⟩ :=
  addUser_duplicate_rejected hashId dbEmpty dbAlice "alice" "pw" "again" rfl

/-- C5: saving a pair for user u and immediately listing for u yields a view
whose input equals the saved input and whose output equals the saved
output. -/
theorem save_then_list_roundTrip (db : DB) (u inp outp : String) :
    ∃ v ∈ get_user_ideas (save_idea db u inp outp) u,
      v.input = inp ∧ v.output = outp := by
  refine ⟨⟨db.nextId, db.now, inp, outp⟩, ?_, rfl, rfl⟩
  unfold get_user_ideas save_idea
  rw [List.mem_map]
  refine ⟨⟨db.nextId, u, inp, outp, db.now⟩, ?_, rfl⟩
  rw [List.mem_insertionSort, List.mem_filter]
  simp

/-- C6: every view listed for u is the projection of an ideas row owned by u;
the listing is in non-increasing timestamp order; and it is empty whenever
u owns no ideas row. -/
theorem listForUser_owned_sorted_empty (db : DB) (u : String) :
    (∀ v ∈ get_user_ideas db u, ∃ r ∈ db.ideas, r.username = u ∧
        v = ⟨r.id, r.timestamp, r.input, r.output⟩) ∧
    (get_user_ideas db u).Pairwise (fun a b => b.timestamp ≤ a.timestamp) ∧
    ((∀ r ∈ db.ideas, r.username ≠ u) → get_user_ideas db u = []) := by
  refine ⟨?_, ?_, ?_⟩
  · intro v hv
    unfold get_user_ideas at hv
    rw [List.mem_map] at hv
    obtain ⟨r, hr, hvr⟩ := hv
    rw [List.mem_insertionSort, List.mem_filter] at hr
    exact ⟨r, hr.1, by simpa using hr.2, hvr.symm⟩
  · unfold get_user_ideas
    rw [List.pairwise_map]
    exact List.sorted_insertionSort tsDesc _
  · intro hno
    unfold get_user_ideas
    have : db.ideas.filter (fun r => r.username == u) = [] := by
      rw [List.filter_eq_nil_iff]
      intro r hr
      simpa using hno r hr
    rw [this]
    rfl

/-- Witness for C6 at a concrete store: "alice" owns no ideas in dbAlice, so
her listing is empty. -/
theorem listForUser_owned_sorted_empty_witness :
    get_user_ideas dbAlice "alice" = [] :=
  (listForUser_owned_sorted_empty dbAlice "alice").2.2 (by simp [dbAlice])

/-- Helper: after the UPDATE of upgrade_user_plan, the lookup of a username
that had a row finds a row whose plan column is "pro". -/
theorem find?_after_upgradeMap (l : List UserRow) (u : String) (r0 : UserRow)
    (hmem : r0 ∈ l) (hu : r0.username = u) :
    ∃ r, (l.map (fun r => if r.username == u then { r with plan := "pro" } else r)).find?
        (fun r => r.username == u) = some r ∧ r.plan = "pro" := by
  induction l with
  | nil => cases hmem
  | cons a l ih =>
      simp only [List.map_cons]
      by_cases ha : a.username == u
      · refine ⟨{ a with plan := "pro" }, ?_, rfl⟩
        rw [if_pos ha]
        exact List.find?_cons_of_pos _ ha
      · rw [if_neg ha,
          List.find?_cons_of_neg (p := fun (r : UserRow) => r.username == u) _ ha]
        rcases List.mem_cons.mp hmem with rfl | hmem'
        · exact absurd (by simp [hu]) ha
        · exact ih hmem'

/-- C7: for a registered user, upgrading sets the stored plan to "pro",
upgrading twice leaves the very same database state as upgrading once, and
every can_save check made under the plan read back after the upgrade
succeeds for every stored-idea count. -/
theorem upgradePlan_idempotent_and_unlimited (db : DB) (u : String) (r0 : UserRow)
    (hmem : r0 ∈ db.users) (hu : r0.username = u) :
    get_user_plan (upgrade_user_plan db u) u = "pro" ∧
    upgrade_user_plan (upgrade_user_plan db u) u = upgrade_user_plan db u ∧
    ∀ k, can_save (get_user_plan (upgrade_user_plan db u) u) k = true := by
  have hplan : get_user_plan (upgrade_user_plan db u) u = "pro" := by
    obtain ⟨r, hfind, hpro⟩ := find?_after_upgradeMap db.users u r0 hmem hu
    simp only [get_user_plan, upgrade_user_plan]
    rw [hfind]
    exact hpro
  refine ⟨hplan, ?_, ?_⟩
  · unfold upgrade_user_plan
    simp only [List.map_map]
    congr 1
    apply List.map_congr_left
    intro r _
    by_cases h : r.username == u <;> simp [Function.comp, h]
  · intro k
    rw [hplan]
    rfl

/-- Witness for C7: upgrading the registered free user "alice" makes her
stored plan "pro". -/
theorem upgradePlan_idempotent_witness :
    get_user_plan (upgrade_user_plan dbAlice "alice") "alice" = "pro" :=
  (upgradePlan_idempotent_and_unlimited dbAlice "alice" ⟨"alice", hashId "pw", "free"⟩
    (List.Mem.head _) rfl).1
